import Mathlib

/-!
Verification of the tendermint-exporter scrape pipeline (main.go).

The Go program is shallowly embedded: each Go function the claims touch
(`getJsonString`, `GetBinaryVersion`, `GetNodeStatus`, `GetAllData`,
`BoolToFloat64`, the metric-rendering part of `Handler`) becomes a Lean
definition. External effects (the Tendermint RPC round trip, the GitHub
HTTP call, the subprocess execution, `json.Unmarshal`) are parameters of
the embedding: an environment record supplies their outcomes, and the
embedded code routes those outcomes exactly as the Go control flow does.
Go strings are Lean `String`s; the `strings` package functions used by
the source (`Split` on a separator, `HasPrefix`, `HasSuffix`,
`Contains`) are re-implemented over the underlying character list so
that every predicate is an executable, kernel-reducible function.
`float64` gauge values are integer-valued in this program (0/1 flags,
block heights, voting power, whole seconds), so they are modeled as
`Int`.
-/

/-- The opening brace character. -/
def braceOpen : Char := Char.ofNat 123

/-- The closing brace character. -/
def braceClose : Char := Char.ofNat 125

/-- Split a character list at every occurrence of the separator
character, keeping empty segments, as Go's `strings.Split` does for a
one-character separator. `acc` is the current segment, reversed. -/
def splitCharAux (c : Char) : List Char → List Char → List (List Char)
  | [], acc => [acc.reverse]
  | x :: xs, acc =>
      if x = c then acc.reverse :: splitCharAux c xs []
      else splitCharAux c xs (x :: acc)

/-- Go `strings.Split(s, sep)` for a one-character separator. -/
def goSplitChar (c : Char) (s : String) : List String :=
  (splitCharAux c s.data []).map String.mk

/-- Go `strings.HasPrefix(s, p)`. -/
def goHasPre (s p : String) : Bool :=
  p.data.isPrefixOf s.data

/-- Go `strings.HasSuffix(s, p)`. -/
def goHasSuf (s p : String) : Bool :=
  p.data.isSuffixOf s.data

/-- Does `needle` occur as a contiguous run inside `hay`?  Executable
counterpart of `List.IsInfix`, used to model Go `strings.Contains`. -/
def listContainsSub (needle : List Char) : List Char → Bool
  | [] => needle.isPrefixOf []
  | x :: xs => needle.isPrefixOf (x :: xs) || listContainsSub needle xs

/-- Go `strings.Contains(s, sub)`: `sub` occurs inside `s`. -/
def goContains (s sub : String) : Bool :=
  listContainsSub sub.data s.data

/-- Whitespace trimming of a character list on both ends, used only by
the spec-side formalisation of "trimmed content" (the Go source never
trims). -/
def trimCharList (l : List Char) : List Char :=
  ((l.dropWhile Char.isWhitespace).reverse.dropWhile Char.isWhitespace).reverse

/-- Trim leading and trailing whitespace of a string (spec-side only). -/
def specTrim (s : String) : String :=
  String.mk (trimCharList s.data)

/-- The test Go applies to each line of the probe output: the raw line
has the opening brace as first character and the closing brace as last
character -- with no trimming. -/
def jsonLineTest (line : String) : Bool :=
  goHasPre line "\x7b" && goHasSuf line "\x7d"

/-- The `for _, line := range split` loop body of `getJsonString`:
return the first line passing `jsonLineTest`, if any. -/
def getJsonStringLoop : List String → Option String
  | [] => none
  | line :: rest =>
      if jsonLineTest line then some line else getJsonStringLoop rest

/-- Go `getJsonString` (main.go): split the captured output on newlines,
return the first line that starts with an opening brace and ends with a
closing brace; if no line qualifies, return the whole input. -/
def getJsonString (input : String) : String :=
  let split := goSplitChar '\n' input
  match getJsonStringLoop split with
  | some line => line
  | none => input

/-- Spec-side selector, following the spec's words: "select the first
line whose trimmed content begins with a brace and ends with a brace".
Used only to compare the spec's description against `getJsonString`. -/
def specSelectJsonLine (input : String) : Option String :=
  (goSplitChar '\n' input).find?
    (fun line => goHasPre (specTrim line) "\x7b" && goHasSuf (specTrim line) "\x7d")

/-! ## Data model (main.go types) -/

/-- Go `VersionInfo`: decoded output of the binary version probe. -/
structure VersionInfo where
  name : String
  version : String
deriving Repr, DecidableEq

/-- Go `ReleaseInfo`: decoded GitHub latest-release response. -/
structure ReleaseInfo where
  name : String
  tagName : String
deriving Repr, DecidableEq

/-- The parts of Tendermint's `p2p.DefaultNodeInfo` the program reads. -/
structure NodeInfo where
  defaultNodeID : String
  moniker : String
deriving Repr, DecidableEq

/-- The parts of `coretypes.SyncInfo` the program reads.  The block
timestamp is a wall-clock instant in whole seconds. -/
structure SyncInfo where
  catchingUp : Bool
  latestBlockHeight : Int
  latestBlockTime : Int
deriving Repr, DecidableEq

/-- The part of `coretypes.ValidatorInfo` the program reads. -/
structure ValidatorInfo where
  votingPower : Int
deriving Repr, DecidableEq

/-- Go `coretypes.ResultStatus`, restricted to the fields the program
reads. -/
structure ResultStatus where
  nodeInfo : NodeInfo
  syncInfo : SyncInfo
  validatorInfo : ValidatorInfo
deriving Repr, DecidableEq

/-- Errors are carried by message text, matching how the program only
ever reads `err.Error()`. -/
abbrev Err := String

/-- Go `Data` (main.go): the scrape snapshot.  Go's nil pointers for
the two statuses become `Option`; the zero structs of the value fields
are the all-empty records. -/
structure Data where
  releaseInfo : ReleaseInfo
  versionInfo : VersionInfo
  localStatus : Option ResultStatus
  remoteStatus : Option ResultStatus
  err : Option Err
deriving Repr, DecidableEq

/-- The zero `ReleaseInfo` struct. -/
def zeroRelease : ReleaseInfo := { name := "", tagName := "" }

/-- The zero `VersionInfo` struct. -/
def zeroVersion : VersionInfo := { name := "", version := "" }

/-- The read-only configuration globals of main.go that the scrape path
reads. -/
structure Config where
  localTendermintRpc : String
  remoteTendermintRpc : String
  binaryPath : String
  binaryArgs : String
  githubOrg : String
  githubRepo : String
  githubToken : String
deriving Repr, DecidableEq

/-! ## Fetchers -/

/-- Environment of one `GetNodeStatus` call: the outcome of
`tmrpc.New` (client construction) and, if that succeeds, the outcome of
`client.Status` -- which in Go returns a possibly-nil pointer even on a
nil error, hence `Option ResultStatus` in the success case. -/
structure RpcEnv where
  newResult : Except Err Unit
  statusResult : Except Err (Option ResultStatus)

/-- Go `GetNodeStatus` (main.go): construct the client, issue the
status query, and treat a nil status on a nil error as the error
"empty status from node".  Returns the Go pair
`(*coretypes.ResultStatus, error)`. -/
def GetNodeStatus (env : RpcEnv) : Option ResultStatus × Option Err :=
  match env.newResult with
  | .error e => (none, some e)
  | .ok _ =>
    match env.statusResult with
    | .error e => (none, some e)
    | .ok none => (none, some "empty status from node")
    | .ok (some status) => (some status, none)

/-- Environment of one `GetBinaryVersion` call: the outcome of
`exec.Command(...).CombinedOutput()` (captured output or process
error), and the behaviour of `json.Unmarshal` into a `VersionInfo` --
which in Go both fills the target and returns an error, hence a pair. -/
structure ExecEnv where
  cmdResult : Except Err String
  unmarshal : String → VersionInfo × Option Err

/-- Go `GetBinaryVersion` (main.go): run the binary; on process error
return the zero `VersionInfo` with that error; otherwise extract the
JSON candidate line via `getJsonString` and unmarshal it, returning the
unmarshal result (value and error) as Go does. -/
def GetBinaryVersion (env : ExecEnv) : VersionInfo × Option Err :=
  match env.cmdResult with
  | .error e => (zeroVersion, some e)
  | .ok out =>
    let jsonOutput := getJsonString out
    env.unmarshal jsonOutput

/-- Environment of one `GetAllData` scrape: the RPC environments of the
local and remote status fetches, the outcome of `GetGithubRelease`
(which fills `releaseInfo` through a pointer and returns an error,
hence a pair), and the exec environment of the version probe. -/
structure ScrapeEnv where
  localRpc : RpcEnv
  remoteRpc : RpcEnv
  releaseFetch : ReleaseInfo × Option Err
  execEnv : ExecEnv

/-- Is the remote-status goroutine's fetch actually invoked?  Go:
skipped iff `RemoteTendermintRpc == ""`. -/
def remoteFetchInvoked (cfg : Config) : Bool :=
  !(cfg.remoteTendermintRpc = "")

/-- Is the release goroutine's fetch actually invoked?  Go: skipped iff
`GithubOrg == "" || GithubRepo == ""`. -/
def releaseFetchInvoked (cfg : Config) : Bool :=
  !(cfg.githubOrg = "" || cfg.githubRepo = "")

/-- Is the version-probe goroutine's fetch actually invoked?  Go:
skipped iff `BinaryPath == ""`. -/
def versionProbeInvoked (cfg : Config) : Bool :=
  !(cfg.binaryPath = "")

/-- Contents of the local-status goroutine's result slots
`(localStatus, localStatusError)` at the barrier: this fetch is always
invoked. -/
def localFetchRes (env : ScrapeEnv) : Option ResultStatus × Option Err :=
  GetNodeStatus env.localRpc

/-- Contents of the remote-status goroutine's result slots
`(remoteStatus, remoteStatusError)` at the barrier: when no remote RPC
address is configured the goroutine returns early, leaving the nil
pointer and nil error. -/
def remoteFetchRes (cfg : Config) (env : ScrapeEnv) :
    Option ResultStatus × Option Err :=
  if cfg.remoteTendermintRpc = "" then (none, none)
  else GetNodeStatus env.remoteRpc

/-- Contents of the release goroutine's result slots
`(releaseInfo, releaseInfoError)` at the barrier: when org or repo is
unset the goroutine returns early, leaving the zero struct and nil
error. -/
def releaseFetchRes (cfg : Config) (env : ScrapeEnv) :
    ReleaseInfo × Option Err :=
  if cfg.githubOrg = "" || cfg.githubRepo = "" then (zeroRelease, none)
  else env.releaseFetch

/-- Contents of the version-probe goroutine's result slots
`(versionInfo, versionInfoError)` at the barrier: when no binary path
is configured the goroutine returns early, leaving the zero struct and
nil error. -/
def versionFetchRes (cfg : Config) (env : ScrapeEnv) :
    VersionInfo × Option Err :=
  if cfg.binaryPath = "" then (zeroVersion, none)
  else GetBinaryVersion env.execEnv

/-- The Go struct literal `Data{err: e}`: every other field at its zero
value. -/
def errData (e : Err) : Data :=
  { releaseInfo := zeroRelease, versionInfo := zeroVersion,
    localStatus := none, remoteStatus := none, err := some e }

/-- Go `GetAllData` (main.go), after the `wg.Wait()` barrier.  The four
goroutines write disjoint result slots: a skipped optional fetch leaves
its slot at the zero value with a nil error.  After the join the four
error slots are checked in the fixed order local, remote, release,
version; the first non-nil one is returned alone in `Data{err: ...}`
(all other fields zero), and only if all are nil is the snapshot
assembled. -/
def GetAllData (cfg : Config) (env : ScrapeEnv) : Data :=
  match (localFetchRes env).2 with
  | some e => errData e
  | none =>
  match (remoteFetchRes cfg env).2 with
  | some e => errData e
  | none =>
  match (releaseFetchRes cfg env).2 with
  | some e => errData e
  | none =>
  match (versionFetchRes cfg env).2 with
  | some e => errData e
  | none =>
      { releaseInfo := (releaseFetchRes cfg env).1,
        versionInfo := (versionFetchRes cfg env).1,
        localStatus := (localFetchRes env).1,
        remoteStatus := (remoteFetchRes cfg env).1, err := none }

/-! ## Renderer and HTTP handler -/

/-- Go `BoolToFloat64` (main.go).  The float64 codomain is modeled as
`Int` since the program only ever produces 0 or 1 here. -/
def BoolToFloat64 (value : Bool) : Int :=
  if value then 1 else 0

/-- One gauge sample set by the handler: metric name, label pairs in
source order, and the (integer-valued) gauge value. -/
structure GaugeSample where
  name : String
  labels : List (String × String)
  value : Int
deriving Repr, DecidableEq

/-- The HTTP outcome of one `Handler` invocation: an error response
(written via `WriteHeader` plus a plain-text body, with no gauge set),
a success response (promhttp serves the registry, implicitly status
200, with exactly the gauge samples that were set), or the nil-pointer
dereference Go would hit if an error-free snapshot carried a nil local
status -- kept as an explicit, provably unreachable outcome. -/
inductive HandlerResponse where
  | failure (status : Nat) (body : String)
  | success (status : Nat) (gauges : List GaugeSample)
  | nilPanic
deriving Repr, DecidableEq

/-- The Go expression deciding the mismatch gauge's value:
`!(strings.Contains(tagName, version) || strings.Contains(version, tagName))`. -/
def versionMismatch (tagName version : String) : Bool :=
  !(goContains tagName version || goContains version tagName)

/-- The version-match predicate the spec speaks about: the negation of
`versionMismatch`, i.e. either string occurs inside the other. -/
def versionMatch (a b : String) : Bool :=
  goContains a b || goContains b a

/-- The gauge-setting block of Go `Handler` (main.go) on an error-free
snapshot, with `ls` the dereferenced local status and `now` the
wall-clock second at render time.  Samples appear in source order; the
three conditional gauges (`app version`, `github latest version`,
`version mismatch`) are guarded by non-emptiness of the decoded
strings, and the remote-block gauge by non-nilness of the remote
status pointer. -/
def renderGauges (cfg : Config) (now : Int) (data : Data) (ls : ResultStatus) :
    List GaugeSample :=
  [ { name := "tendermint_node_catching_up",
      labels := [("id", ls.nodeInfo.defaultNodeID), ("moniker", ls.nodeInfo.moniker)],
      value := BoolToFloat64 ls.syncInfo.catchingUp },
    { name := "tendermint_node_voting_power",
      labels := [("id", ls.nodeInfo.defaultNodeID), ("moniker", ls.nodeInfo.moniker)],
      value := ls.validatorInfo.votingPower },
    { name := "tendermint_node_time_since_latest_block",
      labels := [("id", ls.nodeInfo.defaultNodeID), ("moniker", ls.nodeInfo.moniker)],
      value := now - ls.syncInfo.latestBlockTime } ]
  ++ (if data.versionInfo.version = "" then [] else
    [ { name := "tendermint_node_app_version",
        labels := [("id", ls.nodeInfo.defaultNodeID), ("moniker", ls.nodeInfo.moniker),
                   ("version", data.versionInfo.version)],
        value := 1 } ])
  ++ (if data.releaseInfo.tagName = "" then [] else
    [ { name := "tendermint_github_latest_version",
        labels := [("organization", cfg.githubOrg), ("repository", cfg.githubRepo),
                   ("version", data.releaseInfo.tagName)],
        value := 1 } ])
  ++ (if data.versionInfo.version = "" ∨ data.releaseInfo.tagName = "" then [] else
    [ { name := "tendermint_latest_version_mismatch",
        labels := [("id", ls.nodeInfo.defaultNodeID), ("moniker", ls.nodeInfo.moniker),
                   ("local_version", data.versionInfo.version),
                   ("remote_version", data.releaseInfo.tagName)],
        value := BoolToFloat64 (versionMismatch data.releaseInfo.tagName data.versionInfo.version) } ])
  ++ [ { name := "tendermint_local_node_latest_block",
         labels := [("id", ls.nodeInfo.defaultNodeID), ("moniker", ls.nodeInfo.moniker)],
         value := ls.syncInfo.latestBlockHeight } ]
  ++ (match data.remoteStatus with
      | none => []
      | some rs =>
        [ { name := "tendermint_remote_node_latest_block",
            labels := [("id", rs.nodeInfo.defaultNodeID), ("moniker", rs.nodeInfo.moniker)],
            value := rs.syncInfo.latestBlockHeight } ])

/-- Go `Handler` (main.go): run `GetAllData`; on an aggregate error
write status 500 with the plain-text body
`"Error fetching data: " + err.Error()` and set no gauge; otherwise set
the gauges and let promhttp serve them with status 200.  The
`nilPanic` branch marks where Go would dereference a nil
`data.localStatus`. -/
def Handler (cfg : Config) (env : ScrapeEnv) (now : Int) : HandlerResponse :=
  let data := GetAllData cfg env
  match data.err with
  | some e => .failure 500 ("Error fetching data: " ++ e)
  | none =>
    match data.localStatus with
    | none => .nilPanic
    | some ls => .success 200 (renderGauges cfg now data ls)

/-- Does the gauge list contain a sample of the given metric name? -/
def hasGauge (name : String) (gauges : List GaugeSample) : Bool :=
  gauges.any (fun g => g.name == name)

/-- The gauge samples an HTTP response carries: an error response and
the (unreachable) panic carry none. -/
def responseGauges : HandlerResponse → List GaugeSample
  | .failure _ _ => []
  | .success _ gauges => gauges
  | .nilPanic => []

/-! ## Concrete values used to instantiate the theorems -/

/-- A concrete healthy node status. -/
def sampleStatus : ResultStatus :=
  { nodeInfo := { defaultNodeID := "abc", moniker := "node1" },
    syncInfo := { catchingUp := false, latestBlockHeight := 500, latestBlockTime := 1000 },
    validatorInfo := { votingPower := 100 } }

/-- An RPC environment whose status query succeeds with `sampleStatus`. -/
def okRpc : RpcEnv :=
  { newResult := .ok (), statusResult := .ok (some sampleStatus) }

/-- An RPC environment whose client construction fails with message `e`. -/
def errRpc (e : Err) : RpcEnv :=
  { newResult := .error e, statusResult := .ok none }

/-- A probe environment that succeeds and decodes version 1.0.0. -/
def okExec : ExecEnv :=
  { cmdResult := .ok "\x7b\"name\":\"x\",\"version\":\"1.0.0\"\x7d",
    unmarshal := fun _ => ({ name := "x", version := "1.0.0" }, none) }

/-- Probe output with no line that starts and ends with a brace. -/
def noJsonOut : String := "some log line\nno json here"

/-- A probe environment that captures `noJsonOut` and whose unmarshal
step rejects it. -/
def failExec : ExecEnv :=
  { cmdResult := .ok noJsonOut,
    unmarshal := fun _ => (zeroVersion, some "invalid character") }

/-- A probe environment whose subprocess itself fails. -/
def badExec : ExecEnv :=
  { cmdResult := .error "exec failed",
    unmarshal := fun _ => (zeroVersion, some "unused") }

/-- A configuration with every optional fetch configured. -/
def fullCfg : Config :=
  { localTendermintRpc := "http://localhost:26657",
    remoteTendermintRpc := "http://remote:26657",
    binaryPath := "gaia", binaryArgs := "version --long --output json",
    githubOrg := "cosmos", githubRepo := "gaia", githubToken := "" }

/-- A configuration with remote RPC, GitHub org/repo and binary path all
unset. -/
def minimalCfg : Config :=
  { localTendermintRpc := "http://localhost:26657",
    remoteTendermintRpc := "", binaryPath := "", binaryArgs := "",
    githubOrg := "", githubRepo := "", githubToken := "" }

/-- A scrape environment in which every launched fetch succeeds. -/
def baseEnv : ScrapeEnv :=
  { localRpc := okRpc, remoteRpc := okRpc,
    releaseFetch := ({ name := "rel", tagName := "v2.0.0" }, none),
    execEnv := okExec }

/-- A scrape environment whose optional fetches would all fail -- used
to show that under `minimalCfg` they are never consulted. -/
def envMin : ScrapeEnv :=
  { localRpc := okRpc, remoteRpc := errRpc "unreachable",
    releaseFetch := (zeroRelease, some "github down"),
    execEnv := badExec }

/-- A scrape environment whose local status fetch fails. -/
def envLocalErr : ScrapeEnv :=
  { localRpc := errRpc "connection refused", remoteRpc := okRpc,
    releaseFetch := ({ name := "rel", tagName := "v2.0.0" }, none),
    execEnv := okExec }

/-- A scrape environment whose remote status fetch fails while the
local one succeeds. -/
def envRemoteErr : ScrapeEnv :=
  { localRpc := okRpc, remoteRpc := errRpc "remote down",
    releaseFetch := ({ name := "rel", tagName := "v2.0.0" }, none),
    execEnv := okExec }

/-- A snapshot with both version strings decoded and non-empty. -/
def sampleData : Data :=
  { releaseInfo := { name := "rel", tagName := "v2.0.0" },
    versionInfo := { name := "x", version := "1.0.0" },
    localStatus := some sampleStatus, remoteStatus := some sampleStatus,
    err := none }

/-- The probe line of the C4 scenario, padded with surrounding spaces:
its trimmed content starts and ends with a brace, the raw line does
not. -/
def padJsonLine : String := " \x7b\"name\":\"x\",\"version\":\"1.0.0\"\x7d "

/-- Three-line probe output whose only JSON-object line is
`padJsonLine`, surrounded by wrapper log noise. -/
def padInput : String := "cosmovisor log\n" ++ padJsonLine ++ "\nbye"

/-! ## Helper lemmas -/

/-- The spec's resolution order, stated directly on the four error
slots: first non-nil error in the order local, remote, release,
version. -/
def firstError (localE remoteE releaseE versionE : Option Err) : Option Err :=
  match localE with
  | some e => some e
  | none =>
  match remoteE with
  | some e => some e
  | none =>
  match releaseE with
  | some e => some e
  | none => versionE

theorem aux_loop_eq_find (l : List String) :
    getJsonStringLoop l = l.find? jsonLineTest := by
  induction l with
  | nil => rfl
  | cons x xs ih =>
      cases h : jsonLineTest x <;>
        simp [getJsonStringLoop, List.find?_cons, h, ih]

theorem aux_getAllData_err (cfg : Config) (env : ScrapeEnv) :
    (GetAllData cfg env).err =
      firstError (localFetchRes env).2 (remoteFetchRes cfg env).2
        (releaseFetchRes cfg env).2 (versionFetchRes cfg env).2 := by
  unfold GetAllData firstError
  cases h1 : (localFetchRes env).2 <;> simp [h1, errData]
  cases h2 : (remoteFetchRes cfg env).2 <;> simp [h2, errData]
  cases h3 : (releaseFetchRes cfg env).2 <;> simp [h3, errData]
  cases h4 : (versionFetchRes cfg env).2 <;> simp [h4, errData]

theorem aux_getAllData_localErr (cfg : Config) (env : ScrapeEnv) (e : Err)
    (h : (localFetchRes env).2 = some e) :
    GetAllData cfg env = errData e := by
  unfold GetAllData
  simp [h]

theorem aux_status_not_both_nil (env : RpcEnv) :
    (GetNodeStatus env).1 = none → (GetNodeStatus env).2 ≠ none := by
  cases hn : env.newResult with
  | error e => simp [GetNodeStatus, hn]
  | ok u =>
      cases hs : env.statusResult with
      | error e => simp [GetNodeStatus, hn, hs]
      | ok s => cases s <;> simp [GetNodeStatus, hn, hs]

theorem aux_status_ok_some (env : RpcEnv)
    (h : (GetNodeStatus env).2 = none) :
    ∃ s, (GetNodeStatus env).1 = some s := by
  cases hn : env.newResult with
  | error e => simp [GetNodeStatus, hn] at h
  | ok u =>
      cases hs : env.statusResult with
      | error e => simp [GetNodeStatus, hn, hs] at h
      | ok s =>
          cases s with
          | none => simp [GetNodeStatus, hn, hs] at h
          | some st => exact ⟨st, by simp [GetNodeStatus, hn, hs]⟩

theorem aux_getAllData_err_none (cfg : Config) (env : ScrapeEnv)
    (h : (GetAllData cfg env).err = none) :
    GetAllData cfg env =
      { releaseInfo := (releaseFetchRes cfg env).1,
        versionInfo := (versionFetchRes cfg env).1,
        localStatus := (localFetchRes env).1,
        remoteStatus := (remoteFetchRes cfg env).1, err := none } := by
  unfold GetAllData at *
  cases h1 : (localFetchRes env).2 <;> simp [h1, errData] at h ⊢
  cases h2 : (remoteFetchRes cfg env).2 <;> simp [h2, errData] at h ⊢
  cases h3 : (releaseFetchRes cfg env).2 <;> simp [h3, errData] at h ⊢
  cases h4 : (versionFetchRes cfg env).2 <;> simp [h4, errData] at h ⊢

theorem aux_getAllData_localStatus_some (cfg : Config) (env : ScrapeEnv)
    (h : (GetAllData cfg env).err = none) :
    ∃ s, (GetAllData cfg env).localStatus = some s := by
  have hd := aux_getAllData_err_none cfg env h
  have hle : (localFetchRes env).2 = none := by
    unfold GetAllData at h
    cases h1 : (localFetchRes env).2 <;> simp [h1, errData] at h ⊢
  obtain ⟨s, hs⟩ := aux_status_ok_some env.localRpc hle
  exact ⟨s, by rw [hd]; simpa [localFetchRes] using hs⟩

theorem aux_getAllData_err_some (cfg : Config) (env : ScrapeEnv) (e : Err)
    (h : (GetAllData cfg env).err = some e) :
    GetAllData cfg env = errData e := by
  unfold GetAllData at *
  cases h1 : (localFetchRes env).2 with
  | some e1 =>
      simp [h1, errData] at h ⊢
      simp [h]
  | none =>
  cases h2 : (remoteFetchRes cfg env).2 with
  | some e2 =>
      simp [h1, h2, errData] at h ⊢
      simp [h]
  | none =>
  cases h3 : (releaseFetchRes cfg env).2 with
  | some e3 =>
      simp [h1, h2, h3, errData] at h ⊢
      simp [h]
  | none =>
  cases h4 : (versionFetchRes cfg env).2 with
  | some e4 =>
      simp [h1, h2, h3, h4, errData] at h ⊢
      simp [h]
  | none =>
      simp [h1, h2, h3, h4] at h

/-! ## Claim theorems -/

/-- C1: After the join barrier, `GetAllData` resolves the scrape by
checking the four sub-fetch error slots in the fixed priority order
local-status, remote-status, release, version-probe; the first non-nil
error is the aggregate error and short-circuits all later checks, and
whenever the local-status fetch fails the aggregate result is exactly
the local-status error (a `Data` holding only that error), regardless
of every other slot. -/
theorem claim_c1_resolution_order (cfg : Config) (env : ScrapeEnv) :
    (GetAllData cfg env).err =
      firstError (localFetchRes env).2 (remoteFetchRes cfg env).2
        (releaseFetchRes cfg env).2 (versionFetchRes cfg env).2 ∧
    ∀ e, (localFetchRes env).2 = some e → GetAllData cfg env = errData e :=
  ⟨aux_getAllData_err cfg env,
   fun e h => aux_getAllData_localErr cfg env e h⟩

theorem claim_c1_witness :
    GetAllData fullCfg envLocalErr = errData "connection refused" :=
  (claim_c1_resolution_order fullCfg envLocalErr).2 "connection refused" rfl

/-- C2: When the remote-status fetch is launched (a remote RPC address
is configured), the local-status fetch succeeds, and the remote-status
fetch errors, the aggregate result is exactly that remote error with
no snapshot data. -/
theorem claim_c2_remote_error (cfg : Config) (env : ScrapeEnv) (e : Err)
    (hrun : ¬ cfg.remoteTendermintRpc = "")
    (hlocal : (localFetchRes env).2 = none)
    (hremote : (GetNodeStatus env.remoteRpc).2 = some e) :
    GetAllData cfg env = errData e := by
  unfold GetAllData
  simp [hlocal, remoteFetchRes, hrun, hremote]

theorem claim_c2_witness :
    GetAllData fullCfg envRemoteErr = errData "remote down" :=
  claim_c2_remote_error fullCfg envRemoteErr "remote down"
    (by decide) rfl rfl

/-- C3: With the remote RPC address, GitHub org, GitHub repo and binary
path all unset, the three optional fetches are not invoked; the
aggregate depends only on the local RPC outcome; a local failure yields
exactly that error; and a local success yields an error-free snapshot
whose optional slots are empty/zero. -/
theorem claim_c3_minimal_config (cfg : Config) (env env2 : ScrapeEnv)
    (h1 : cfg.remoteTendermintRpc = "") (h2 : cfg.githubOrg = "")
    (h3 : cfg.githubRepo = "") (h4 : cfg.binaryPath = "") :
    remoteFetchInvoked cfg = false ∧
    releaseFetchInvoked cfg = false ∧
    versionProbeInvoked cfg = false ∧
    (env2.localRpc = env.localRpc → GetAllData cfg env2 = GetAllData cfg env) ∧
    (∀ e, (localFetchRes env).2 = some e → GetAllData cfg env = errData e) ∧
    ((localFetchRes env).2 = none →
      GetAllData cfg env =
        { releaseInfo := zeroRelease, versionInfo := zeroVersion,
          localStatus := (localFetchRes env).1, remoteStatus := none,
          err := none }) := by
  refine ⟨by simp [remoteFetchInvoked, h1],
          by simp [releaseFetchInvoked, h2],
          by simp [versionProbeInvoked, h4], ?_, ?_, ?_⟩
  · intro he
    unfold GetAllData
    simp [remoteFetchRes, releaseFetchRes, versionFetchRes, localFetchRes,
      h1, h2, h4, he]
  · intro e he
    exact aux_getAllData_localErr cfg env e he
  · intro he
    unfold GetAllData
    simp [remoteFetchRes, releaseFetchRes, versionFetchRes,
      h1, h2, h4, he]

theorem claim_c3_witness :
    GetAllData minimalCfg envMin =
      { releaseInfo := zeroRelease, versionInfo := zeroVersion,
        localStatus := some sampleStatus, remoteStatus := none,
        err := none } :=
  (claim_c3_minimal_config minimalCfg envMin envMin
      rfl rfl rfl rfl).2.2.2.2.2 rfl

/-- C4 counterexample: in `padInput` the second of three lines is the
only JSON-object line and carries surrounding whitespace; its trimmed
content does begin and end with a brace (so the spec's trim-based
selector picks it), yet `getJsonString` does not select it -- it falls
back to the whole input -- because the code tests the raw line without
trimming. -/
theorem claim_c4_counterexample :
    specSelectJsonLine padInput = some padJsonLine ∧
    goHasPre (specTrim padJsonLine) "\x7b" = true ∧
    goHasSuf (specTrim padJsonLine) "\x7d" = true ∧
    getJsonString padInput ≠ padJsonLine ∧
    getJsonString padInput = padInput := by
  decide

/-- C4 amended: the JSON-extraction step selects the first line that
itself (untrimmed) begins with an opening brace and ends with a closing
brace, falling back to the whole input when no line qualifies; in the
three-line example whose unpadded second line is the JSON object, that
second line is selected. -/
theorem claim_c4_first_raw_json_line :
    (∀ input, getJsonString input =
        ((goSplitChar '\n' input).find? jsonLineTest).getD input) ∧
    getJsonString "cosmovisor log\n\x7b\"name\":\"x\",\"version\":\"1.0.0\"\x7d\nbye" =
      "\x7b\"name\":\"x\",\"version\":\"1.0.0\"\x7d" := by
  constructor
  · intro input
    simp only [getJsonString]
    rw [aux_loop_eq_find]
    cases h : (goSplitChar '\n' input).find? jsonLineTest <;> simp [h]
  · decide

/-- C5: when no line of the captured output both begins with an opening
brace and ends with a closing brace, the whole raw output becomes the
JSON candidate, and if unmarshalling that text fails the probe returns
that decode error (never an error-free zero `VersionInfo`). -/
theorem claim_c5_fallback_decode_error (out : String) (env : ExecEnv)
    (v : VersionInfo) (e : Err)
    (hnoline : (goSplitChar '\n' out).all (fun l => !(jsonLineTest l)) = true)
    (hcmd : env.cmdResult = .ok out)
    (hdec : env.unmarshal out = (v, some e)) :
    getJsonString out = out ∧ GetBinaryVersion env = (v, some e) := by
  have hfind : (goSplitChar '\n' out).find? jsonLineTest = none := by
    rw [List.find?_eq_none]
    intro x hx
    have hall := (List.all_eq_true).1 hnoline x hx
    simpa using hall
  have hjs : getJsonString out = out := by
    simp only [getJsonString]
    rw [aux_loop_eq_find, hfind]
  exact ⟨hjs, by simp [GetBinaryVersion, hcmd, hjs, hdec]⟩

theorem claim_c5_witness :
    getJsonString noJsonOut = noJsonOut ∧
    GetBinaryVersion failExec = (zeroVersion, some "invalid character") :=
  claim_c5_fallback_decode_error noJsonOut failExec zeroVersion
    "invalid character" (by decide) rfl rfl

/-- C6: the version-match predicate (either string occurs inside the
other) is symmetric; it accepts the pair v1.2.0 / 1.2.0 and rejects
1.2.0 / 1.3.0; `versionMismatch` -- whose value the mismatch gauge
carries -- is its pointwise negation, and the rendered mismatch sample
carries `BoolToFloat64` of that negation. -/
theorem claim_c6_match_symmetric :
    (∀ a b : String, versionMatch a b = versionMatch b a) ∧
    versionMatch "v1.2.0" "1.2.0" = true ∧
    versionMatch "1.2.0" "1.3.0" = false ∧
    (∀ tag ver : String, versionMismatch tag ver = !(versionMatch tag ver)) ∧
    (∀ (cfg : Config) (now : Int) (data : Data) (ls : ResultStatus),
      ¬ data.versionInfo.version = "" → ¬ data.releaseInfo.tagName = "" →
      GaugeSample.mk "tendermint_latest_version_mismatch"
          [("id", ls.nodeInfo.defaultNodeID), ("moniker", ls.nodeInfo.moniker),
           ("local_version", data.versionInfo.version),
           ("remote_version", data.releaseInfo.tagName)]
          (BoolToFloat64 (!(versionMatch data.releaseInfo.tagName data.versionInfo.version)))
        ∈ renderGauges cfg now data ls) := by
  refine ⟨?_, by decide, by decide, fun tag ver => rfl, ?_⟩
  · intro a b
    simp [versionMatch, Bool.or_comm]
  · intro cfg now data ls hv ht
    simp [renderGauges, hv, ht, versionMismatch, versionMatch]

theorem claim_c6_witness :
    (¬ (sampleData.versionInfo.version = "")) ∧
    (¬ (sampleData.releaseInfo.tagName = "")) ∧
    GaugeSample.mk "tendermint_latest_version_mismatch"
        [("id", "abc"), ("moniker", "node1"),
         ("local_version", "1.0.0"), ("remote_version", "v2.0.0")]
        (BoolToFloat64 (!(versionMatch "v2.0.0" "1.0.0")))
      ∈ renderGauges fullCfg 2000 sampleData sampleStatus :=
  ⟨by decide, by decide,
   claim_c6_match_symmetric.2.2.2.2 fullCfg 2000 sampleData sampleStatus
     (by decide) (by decide)⟩

/-- C7: `GetNodeStatus` never returns a nil status together with a nil
error; in particular when the RPC query completes but yields a nil
status, it returns exactly the "empty status from node" error. -/
theorem claim_c7_status_not_nil_nil (env : RpcEnv) :
    (¬ ((GetNodeStatus env).1 = none ∧ (GetNodeStatus env).2 = none)) ∧
    (env.newResult = .ok () → env.statusResult = .ok none →
      GetNodeStatus env = (none, some "empty status from node")) := by
  constructor
  · rintro ⟨h1, h2⟩
    exact aux_status_not_both_nil env h1 h2
  · intro hn hs
    simp [GetNodeStatus, hn, hs]

theorem claim_c7_witness :
    GetNodeStatus { newResult := .ok (), statusResult := .ok none } =
      (none, some "empty status from node") :=
  (claim_c7_status_not_nil_nil
    { newResult := .ok (), statusResult := .ok none }).2 rfl rfl

/-- C8: the snapshot invariant.  When the aggregate error is set the
snapshot is the error-only `Data` (every data field at its zero/nil
value) and the handler renders nothing from it; when the aggregate
error is unset the local status is present, so the handler's
dereference of it is safe -- the nil-dereference outcome is
unreachable. -/
theorem claim_c8_snapshot_invariant (cfg : Config) (env : ScrapeEnv) (now : Int) :
    (∀ e, (GetAllData cfg env).err = some e →
        GetAllData cfg env = errData e ∧
        Handler cfg env now = .failure 500 ("Error fetching data: " ++ e)) ∧
    ((GetAllData cfg env).err = none →
        ∃ s, (GetAllData cfg env).localStatus = some s ∧
          Handler cfg env now =
            .success 200 (renderGauges cfg now (GetAllData cfg env) s)) ∧
    Handler cfg env now ≠ HandlerResponse.nilPanic := by
  refine ⟨?_, ?_, ?_⟩
  · intro e he
    refine ⟨aux_getAllData_err_some cfg env e he, ?_⟩
    simp [Handler, he]
  · intro he
    obtain ⟨s, hs⟩ := aux_getAllData_localStatus_some cfg env he
    exact ⟨s, hs, by simp [Handler, he, hs]⟩
  · cases he : (GetAllData cfg env).err with
    | some e => simp [Handler, he]
    | none =>
        obtain ⟨s, hs⟩ := aux_getAllData_localStatus_some cfg env he
        simp [Handler, he, hs]

theorem claim_c8_witness :
    GetAllData fullCfg envLocalErr = errData "connection refused" ∧
    Handler fullCfg envLocalErr 2000 =
      .failure 500 ("Error fetching data: " ++ "connection refused") :=
  (claim_c8_snapshot_invariant fullCfg envLocalErr 2000).1
    "connection refused" rfl

/-- C9: on an aggregate error the HTTP handler responds 500 with the
plain-text body "Error fetching data: " followed by the error message
and sets no gauge sample; on success it responds 200 with the gauge
exposition. -/
theorem claim_c9_http_contract (cfg : Config) (env : ScrapeEnv) (now : Int) :
    (∀ e, (GetAllData cfg env).err = some e →
        Handler cfg env now = .failure 500 ("Error fetching data: " ++ e) ∧
        responseGauges (Handler cfg env now) = []) ∧
    ((GetAllData cfg env).err = none →
        ∃ gauges, Handler cfg env now = .success 200 gauges) := by
  constructor
  · intro e he
    constructor
    · simp [Handler, he]
    · simp [Handler, he, responseGauges]
  · intro he
    obtain ⟨s, hs⟩ := aux_getAllData_localStatus_some cfg env he
    exact ⟨renderGauges cfg now (GetAllData cfg env) s, by simp [Handler, he, hs]⟩

theorem claim_c9_witness :
    Handler fullCfg envLocalErr 2000 =
      .failure 500 ("Error fetching data: " ++ "connection refused") ∧
    responseGauges (Handler fullCfg envLocalErr 2000) = [] :=
  (claim_c9_http_contract fullCfg envLocalErr 2000).1 "connection refused" rfl

/-- C10: the renderer decides "presence" by sentinel emptiness, not by
whether a fetch ran: the app-version gauge is emitted iff the decoded
version string is non-empty, the github-latest-version gauge iff the
decoded tag string is non-empty, the mismatch gauge iff both are
non-empty, and the remote-latest-block gauge iff the remote status
pointer is non-nil. -/
theorem claim_c10_sentinel_presence (cfg : Config) (now : Int)
    (data : Data) (ls : ResultStatus) :
    (hasGauge "tendermint_node_app_version" (renderGauges cfg now data ls) = true ↔
      ¬ data.versionInfo.version = "") ∧
    (hasGauge "tendermint_github_latest_version" (renderGauges cfg now data ls) = true ↔
      ¬ data.releaseInfo.tagName = "") ∧
    (hasGauge "tendermint_latest_version_mismatch" (renderGauges cfg now data ls) = true ↔
      (¬ data.versionInfo.version = "" ∧ ¬ data.releaseInfo.tagName = "")) ∧
    (hasGauge "tendermint_remote_node_latest_block" (renderGauges cfg now data ls) = true ↔
      ¬ data.remoteStatus = none) := by
  by_cases hv : data.versionInfo.version = "" <;>
  by_cases ht : data.releaseInfo.tagName = "" <;>
  cases hr : data.remoteStatus <;>
  simp [renderGauges, hasGauge, hv, ht, hr]

theorem claim_c10_witness :
    hasGauge "tendermint_node_app_version"
        (renderGauges fullCfg 2000 sampleData sampleStatus) = true ↔
      ¬ sampleData.versionInfo.version = "" :=
  (claim_c10_sentinel_presence fullCfg 2000 sampleData sampleStatus).1
